import Mathlib

/-!
Shallow embedding of the finapi account-ledger service (src/src/index.ts).

The service keeps a global in-memory list `customers : Customer[]`; every
handler resolves the caller through `verifyIfExistsAccountCPF` (a linear
`find` on the `cpf` field) and then reads or mutates the resolved record.
JavaScript numbers carrying monetary amounts are modelled as `Int`;
`Date` values are modelled by `JsDate`, keeping the calendar day (the part
`toDateString` renders) separate from the time of day (the part it
discards).  Fallible handlers are modelled with `Except String`, the error
string being the JSON error message the handler sends.
-/

/-- A JavaScript `Date`, abstracted to the granularity the program uses:
`day` is the calendar day in the server's local time zone (the information
`toDateString()` renders) and `msInDay` the discarded time of day. -/
structure JsDate where
  day : Int
  msInDay : Nat
deriving Repr, DecidableEq

/-- Model of `Date.prototype.toDateString()`: renders exactly the calendar
day, discarding the time of day.  Two dates render equal strings iff their
`day` components agree, so the rendered string is modelled by `day` itself. -/
def toDateString (d : JsDate) : Int :=
  d.day

/-- interface StatementOperation (index.ts lines 21-26).  `description` is
optional; `amount` is a JS number modelled as `Int`; `type` is the free-form
string field, `"credit"` or `"debit"` in practice. -/
structure StatementOperation where
  description : Option String
  amount : Int
  createdAt : JsDate
  type : String
deriving Repr, DecidableEq

/-- interface Customer (index.ts lines 8-13). -/
structure Customer where
  id : String
  name : String
  cpf : String
  statement : List StatementOperation
deriving Repr, DecidableEq

/-- Middleware `verifyIfExistsAccountCPF` (lines 29-41): resolves the `cpf`
header to the first matching customer; `none` models the
400 `Customer not found!` response. -/
def verifyIfExistsAccountCPF (customers : List Customer) (cpf : String) :
    Option Customer :=
  customers.find? (fun customer => customer.cpf = cpf)

/-- `getBalance` (lines 43-53): fold over the statement, adding the amount
when `type === "credit"` and subtracting it otherwise. -/
def getBalance (statement : List StatementOperation) : Int :=
  statement.foldl
    (fun acc operation =>
      if operation.type = "credit" then acc + operation.amount
      else acc - operation.amount)
    0

/-- POST /account (lines 55-74).  `newId` stands for the `uuidv4()` result.
On a duplicate `cpf` the handler answers 400 `Customer already exists!`;
otherwise it appends a customer with an empty statement
(`customers = [...customers, newAccount]`). -/
def postAccount (customers : List Customer) (cpf name newId : String) :
    Except String (List Customer) :=
  if customers.any (fun customer => customer.cpf = cpf) then
    Except.error "Customer already exists!"
  else
    Except.ok (customers ++ [{ id := newId, name := name, cpf := cpf, statement := [] }])

/-- The in-place `customer.statement.push(statementOperation)` seen from the
registry: the first customer whose `cpf` matches (the one `find` resolved)
gets the operation appended; everyone else is untouched. -/
def pushToCustomer (customers : List Customer) (cpf : String)
    (op : StatementOperation) : List Customer :=
  match customers with
  | [] => []
  | c :: rest =>
    if c.cpf = cpf then { c with statement := c.statement ++ [op] } :: rest
    else c :: pushToCustomer rest cpf op

/-- POST /deposit (lines 86-105): after resolution, always pushes a
`credit` operation carrying the request's `description` and `amount`,
timestamped `now`. -/
def postDeposit (customers : List Customer) (cpf : String)
    (description : Option String) (amount : Int) (now : JsDate) :
    Except String (List Customer) :=
  match verifyIfExistsAccountCPF customers cpf with
  | none => Except.error "Customer not found!"
  | some _ =>
    Except.ok (pushToCustomer customers cpf
      { description := description, amount := amount, createdAt := now, type := "credit" })

/-- POST /withdraw (lines 107-131): after resolution, computes the balance;
if `balance < amount` answers 400 `Insufficient found!`, otherwise pushes a
`debit` operation (no description field). -/
def postWithdraw (customers : List Customer) (cpf : String)
    (amount : Int) (now : JsDate) :
    Except String (List Customer) :=
  match verifyIfExistsAccountCPF customers cpf with
  | none => Except.error "Customer not found!"
  | some customer =>
    if getBalance customer.statement < amount then
      Except.error "Insufficient found!"
    else
      Except.ok (pushToCustomer customers cpf
        { description := none, amount := amount, createdAt := now, type := "debit" })

/-- GET /statement (lines 76-84): returns the resolved customer's full
statement. -/
def getStatement (customers : List Customer) (cpf : String) :
    Except String (List StatementOperation) :=
  match verifyIfExistsAccountCPF customers cpf with
  | none => Except.error "Customer not found!"
  | some customer => Except.ok customer.statement

/-- GET /statement/date (lines 133-146): `dateFormat` is the parsed
`new Date(date + " 00:00")`; the handler keeps the operations whose
`createdAt.toDateString()` equals the query's `toDateString()`. -/
def getStatementDate (customers : List Customer) (cpf : String)
    (dateFormat : JsDate) :
    Except String (List StatementOperation) :=
  match verifyIfExistsAccountCPF customers cpf with
  | none => Except.error "Customer not found!"
  | some customer =>
    Except.ok (customer.statement.filter
      (fun statement => toDateString statement.createdAt = toDateString dateFormat))

/-- The in-place `customer.name = name` seen from the registry: the first
customer whose `cpf` matches gets the new name; everyone else is untouched. -/
def setCustomerName (customers : List Customer) (cpf name : String) :
    List Customer :=
  match customers with
  | [] => []
  | c :: rest =>
    if c.cpf = cpf then { c with name := name } :: rest
    else c :: setCustomerName rest cpf name

/-- PUT /account (lines 148-157): after resolution, assigns
`customer.name = name` and answers `201` with `send()` — an empty body,
modelled as the `Option Customer` component being `none`. -/
def putAccount (customers : List Customer) (cpf name : String) :
    Except String (Option Customer × List Customer) :=
  match verifyIfExistsAccountCPF customers cpf with
  | none => Except.error "Customer not found!"
  | some _ => Except.ok (none, setCustomerName customers cpf name)

/-- GET /account (lines 159-165): returns the resolved customer record. -/
def getAccount (customers : List Customer) (cpf : String) :
    Except String Customer :=
  match verifyIfExistsAccountCPF customers cpf with
  | none => Except.error "Customer not found!"
  | some customer => Except.ok customer

/-- DELETE /account (lines 167-178): after resolution, replaces the registry
by `customers.filter((customer) => customer.cpf !== cpf)` and answers 200
with the remaining registry. -/
def deleteAccount (customers : List Customer) (cpf : String) :
    Except String (List Customer) :=
  match verifyIfExistsAccountCPF customers cpf with
  | none => Except.error "Customer not found!"
  | some _ => Except.ok (customers.filter (fun customer => customer.cpf ≠ cpf))

/-- GET /balance (lines 180-188): returns `getBalance` of the resolved
customer's statement. -/
def getBalanceEndpoint (customers : List Customer) (cpf : String) :
    Except String Int :=
  match verifyIfExistsAccountCPF customers cpf with
  | none => Except.error "Customer not found!"
  | some customer => Except.ok (getBalance customer.statement)

/-- One request against a single already-opened account: the body of the
POST /deposit handler (lines 95-102) or of the POST /withdraw handler
(lines 116-128), seen from that account's statement. -/
inductive AccountEvent where
  | deposit (description : Option String) (amount : Int) (now : JsDate)
  | withdraw (amount : Int) (now : JsDate)
deriving Repr, DecidableEq

/-- Effect of one deposit or withdraw request on a statement: a deposit
always pushes a `credit` operation; a withdraw pushes a `debit` operation
unless `balance < amount`, in which case the handler returns the error
before mutating anything. -/
def applyEvent (statement : List StatementOperation) :
    AccountEvent → List StatementOperation
  | AccountEvent.deposit description amount now =>
    statement ++
      [{ description := description, amount := amount, createdAt := now, type := "credit" }]
  | AccountEvent.withdraw amount now =>
    if getBalance statement < amount then statement
    else statement ++
      [{ description := none, amount := amount, createdAt := now, type := "debit" }]

/-- The statement of a freshly opened account (`statement: []`) after a
sequence of deposit and withdraw requests. -/
def runEvents (events : List AccountEvent) : List StatementOperation :=
  events.foldl applyEvent []

/-- The `amount` field of a deposit or withdraw request body. -/
def eventAmount : AccountEvent → Int
  | AccountEvent.deposit _ amount _ => amount
  | AccountEvent.withdraw amount _ => amount

/-- A mutating request against the whole service. `openAccount`'s `newId`
stands for the `uuidv4()` result of that request. -/
inductive ApiEvent where
  | openAccount (cpf name newId : String)
  | deposit (cpf : String) (description : Option String) (amount : Int) (now : JsDate)
  | withdraw (cpf : String) (amount : Int) (now : JsDate)
  | updateName (cpf name : String)
  | closeAccount (cpf : String)
deriving Repr, DecidableEq

/-- A handler that answers an error response leaves the module-level
`customers` array as it was; a successful one replaces it. -/
def applyResult (customers : List Customer) :
    Except String (List Customer) → List Customer
  | Except.ok updated => updated
  | Except.error _ => customers

/-- The registry after one mutating request. -/
def stepRegistry (customers : List Customer) : ApiEvent → List Customer
  | ApiEvent.openAccount cpf name newId =>
    applyResult customers (postAccount customers cpf name newId)
  | ApiEvent.deposit cpf description amount now =>
    applyResult customers (postDeposit customers cpf description amount now)
  | ApiEvent.withdraw cpf amount now =>
    applyResult customers (postWithdraw customers cpf amount now)
  | ApiEvent.updateName cpf name =>
    applyResult customers ((putAccount customers cpf name).map Prod.snd)
  | ApiEvent.closeAccount cpf =>
    applyResult customers (deleteAccount customers cpf)

/-- The registry reached from the initial `customers = []` by a sequence of
mutating requests. -/
def runRegistry (events : List ApiEvent) : List Customer :=
  events.foldl stepRegistry []

/-- Balance as the spec words it: "sum of credit amounts minus sum of debit
amounts over the full statement".  Stated independently of `getBalance` to
compare the two. -/
def specBalance (statement : List StatementOperation) : Int :=
  ((statement.filter (fun op => op.type = "credit")).map StatementOperation.amount).sum
    - ((statement.filter (fun op => op.type = "debit")).map StatementOperation.amount).sum

/-- `updated` differs from `customers` only at one occurrence of `customer`,
which had exactly the operation `op` appended to its statement; its `id`,
`name` and `cpf`, and every other entry of the registry, are untouched. -/
def AppendsOnly (customers updated : List Customer) (customer : Customer)
    (op : StatementOperation) : Prop :=
  ∃ before after,
    customers = before ++ customer :: after
    ∧ updated =
        before ++ { customer with statement := customer.statement ++ [op] } :: after

/-- The shape every stored operation has in reachable states: a `credit`
(pushed by the deposit handler, description optional) or a `debit` (pushed
by the withdraw handler, which builds the literal without a description
field). -/
def ValidOp (op : StatementOperation) : Prop :=
  op.type = "credit" ∨ (op.type = "debit" ∧ op.description = none)

/-- Every operation stored anywhere in the registry is a `ValidOp`. -/
def RegistryOpsValid (customers : List Customer) : Prop :=
  ∀ c ∈ customers, ∀ op ∈ c.statement, ValidOp op

/-- The `reduce` callback of `getBalance`, named so the fold can be reasoned
about one step at a time. -/
def balanceStep (acc : Int) (operation : StatementOperation) : Int :=
  if operation.type = "credit" then acc + operation.amount
  else acc - operation.amount

/-- Sample credit operation used by concrete witnesses. -/
def sampleCredit : StatementOperation :=
  { description := some "pay", amount := 100,
    createdAt := { day := 0, msInDay := 5 }, type := "credit" }

/-- Sample debit operation used by concrete witnesses. -/
def sampleDebit : StatementOperation :=
  { description := none, amount := 40,
    createdAt := { day := 0, msInDay := 9 }, type := "debit" }

/-- Sample customer used by concrete witnesses. -/
def sampleAna : Customer :=
  { id := "id1", name := "Ana", cpf := "123",
    statement := [sampleCredit, sampleDebit] }

/-- Second sample customer used by concrete witnesses. -/
def sampleBia : Customer :=
  { id := "id2", name := "Bia", cpf := "456", statement := [] }

theorem getBalance_eq_foldl (s : List StatementOperation) :
    getBalance s = s.foldl balanceStep 0 :=
  rfl

theorem foldl_balanceStep_shift (s : List StatementOperation) (a : Int) :
    s.foldl balanceStep a = a + s.foldl balanceStep 0 := by
  induction s generalizing a with
  | nil => simp
  | cons op rest ih =>
    rw [List.foldl_cons, List.foldl_cons, ih (balanceStep a op), ih (balanceStep 0 op)]
    unfold balanceStep
    by_cases h : op.type = "credit" <;> simp [h] <;> ring

theorem getBalance_cons (op : StatementOperation) (s : List StatementOperation) :
    getBalance (op :: s) = balanceStep 0 op + getBalance s := by
  rw [getBalance_eq_foldl, List.foldl_cons, foldl_balanceStep_shift, getBalance_eq_foldl]

theorem getBalance_append (s : List StatementOperation) (op : StatementOperation) :
    getBalance (s ++ [op]) = balanceStep (getBalance s) op := by
  rw [getBalance_eq_foldl, List.foldl_append, List.foldl_cons, List.foldl_nil,
    getBalance_eq_foldl]

theorem specBalance_cons_credit (op : StatementOperation)
    (rest : List StatementOperation) (hc : op.type = "credit") :
    specBalance (op :: rest) = op.amount + specBalance rest := by
  unfold specBalance
  rw [List.filter_cons_of_pos (by simp [hc]),
    List.filter_cons_of_neg (by rw [hc]; decide)]
  simp only [List.map_cons, List.sum_cons]
  ring

theorem specBalance_cons_debit (op : StatementOperation)
    (rest : List StatementOperation) (hd : op.type = "debit") :
    specBalance (op :: rest) = specBalance rest - op.amount := by
  unfold specBalance
  rw [List.filter_cons_of_neg (by rw [hd]; decide),
    List.filter_cons_of_pos (by simp [hd])]
  simp only [List.map_cons, List.sum_cons]
  ring

/-- C1: for every customer whose statement holds only `credit` and `debit`
operations (every reachable customer, by C9), `getBalance` computes exactly
the spec's fold: starting at 0, the amount of every `credit` operation is
added and the amount of every `debit` operation is subtracted. -/
theorem C1_balance_eq_spec_fold (statement : List StatementOperation)
    (h : ∀ op ∈ statement, op.type = "credit" ∨ op.type = "debit") :
    getBalance statement = specBalance statement := by
  induction statement with
  | nil => rfl
  | cons op rest ih =>
    have hop := h op (List.mem_cons_self op rest)
    have hrest := ih (fun o ho => h o (List.mem_cons_of_mem op ho))
    rw [getBalance_cons, hrest]
    rcases hop with hc | hd
    · rw [specBalance_cons_credit op rest hc]
      unfold balanceStep
      rw [if_pos hc]
      ring
    · rw [specBalance_cons_debit op rest hd]
      unfold balanceStep
      rw [if_neg (by rw [hd]; decide)]
      ring

/-- Witness for C1 on the spec's example statement (credit 100 then
debit 40): both sides evaluate to 60. -/
theorem C1_balance_eq_spec_fold_witness :
    (∀ op ∈ [sampleCredit, sampleDebit], op.type = "credit" ∨ op.type = "debit")
    ∧ getBalance [sampleCredit, sampleDebit] = specBalance [sampleCredit, sampleDebit] :=
  ⟨by decide, C1_balance_eq_spec_fold _ (by decide)⟩

/-- C2, counterexample: the handlers never validate `amount`, so a single
deposit of -1 into a freshly opened account leaves the computed balance at
-1, which is negative. -/
theorem C2_negative_deposit_counterexample :
    getBalance (runEvents
      [AccountEvent.deposit none (-1) { day := 0, msInDay := 0 }]) < 0 := by
  decide

/-- C2, amended: when every deposit and withdraw request carries a
non-negative `amount` (the caller contract the spec states), the balance of
an account opened with an empty statement never goes negative. -/
theorem C2_balance_nonneg (events : List AccountEvent)
    (h : ∀ e ∈ events, 0 ≤ eventAmount e) :
    0 ≤ getBalance (runEvents events) := by
  have key : ∀ (evs : List AccountEvent) (s : List StatementOperation),
      (∀ e ∈ evs, 0 ≤ eventAmount e) → 0 ≤ getBalance s →
      0 ≤ getBalance (evs.foldl applyEvent s) := by
    intro evs
    induction evs with
    | nil => intro s _ hs; exact hs
    | cons e rest ih =>
      intro s hamt hs
      rw [List.foldl_cons]
      refine ih _ (fun x hx => hamt x (List.mem_cons_of_mem e hx)) ?_
      have he := hamt e (List.mem_cons_self e rest)
      cases e with
      | deposit description amount now =>
        rw [applyEvent, getBalance_append]
        unfold balanceStep
        rw [if_pos rfl]
        exact add_nonneg hs he
      | withdraw amount now =>
        rw [applyEvent]
        by_cases hlt : getBalance s < amount
        · rw [if_pos hlt]; exact hs
        · rw [if_neg hlt, getBalance_append]
          unfold balanceStep
          have hne : ({ description := none, amount := amount, createdAt := now,
                        type := "debit" } : StatementOperation).type ≠ "credit" := by
            simp
          rw [if_neg hne]
          exact sub_nonneg.mpr (le_of_not_lt hlt)
  exact key events [] h (by decide)

/-- Witness for the amended C2: deposit 100 then withdraw 40, both
non-negative, ends with a non-negative balance. -/
theorem C2_balance_nonneg_witness :
    (∀ e ∈ [AccountEvent.deposit (some "pay") 100 { day := 0, msInDay := 5 },
            AccountEvent.withdraw 40 { day := 0, msInDay := 9 }],
        0 ≤ eventAmount e)
    ∧ 0 ≤ getBalance (runEvents
        [AccountEvent.deposit (some "pay") 100 { day := 0, msInDay := 5 },
         AccountEvent.withdraw 40 { day := 0, msInDay := 9 }]) :=
  ⟨by decide, C2_balance_nonneg _ (by decide)⟩

theorem postWithdraw_resolved (customers : List Customer) (cpf : String)
    (amount : Int) (now : JsDate) (customer : Customer)
    (h : verifyIfExistsAccountCPF customers cpf = some customer) :
    postWithdraw customers cpf amount now =
      if getBalance customer.statement < amount then
        Except.error "Insufficient found!"
      else
        Except.ok (pushToCustomer customers cpf
          { description := none, amount := amount, createdAt := now,
            type := "debit" }) := by
  unfold postWithdraw
  rw [h]

theorem postDeposit_resolved (customers : List Customer) (cpf : String)
    (description : Option String) (amount : Int) (now : JsDate)
    (customer : Customer)
    (h : verifyIfExistsAccountCPF customers cpf = some customer) :
    postDeposit customers cpf description amount now =
      Except.ok (pushToCustomer customers cpf
        { description := description, amount := amount, createdAt := now,
          type := "credit" }) := by
  unfold postDeposit
  rw [h]

theorem putAccount_resolved (customers : List Customer) (cpf name : String)
    (customer : Customer)
    (h : verifyIfExistsAccountCPF customers cpf = some customer) :
    putAccount customers cpf name
      = Except.ok (none, setCustomerName customers cpf name) := by
  unfold putAccount
  rw [h]

theorem deleteAccount_resolved (customers : List Customer) (cpf : String)
    (customer : Customer)
    (h : verifyIfExistsAccountCPF customers cpf = some customer) :
    deleteAccount customers cpf
      = Except.ok (customers.filter (fun c => c.cpf ≠ cpf)) := by
  unfold deleteAccount
  rw [h]

theorem debitOp_balanceStep (acc : Int) (amount : Int) (now : JsDate) :
    balanceStep acc { description := none, amount := amount, createdAt := now,
                      type := "debit" } = acc - amount := by
  unfold balanceStep
  rw [if_neg (by simp : ({ description := none, amount := amount, createdAt := now,
                           type := "debit" } : StatementOperation).type ≠ "credit")]

/-- C3: for a resolved customer, POST /withdraw answers the
`Insufficient found!` error exactly when the requested `amount` is strictly
greater than the folded balance; when the amount equals the balance the
withdrawal goes through, a debit operation is appended, and the balance of
the extended statement is 0. -/
theorem C3_withdraw_insufficient_iff (customers : List Customer) (cpf : String)
    (customer : Customer) (amount : Int) (now : JsDate)
    (h : verifyIfExistsAccountCPF customers cpf = some customer) :
    (postWithdraw customers cpf amount now = Except.error "Insufficient found!"
      ↔ getBalance customer.statement < amount)
    ∧ (getBalance customer.statement = amount →
        postWithdraw customers cpf amount now
          = Except.ok (pushToCustomer customers cpf
              { description := none, amount := amount, createdAt := now,
                type := "debit" })
        ∧ getBalance (customer.statement ++
            [{ description := none, amount := amount, createdAt := now,
               type := "debit" }]) = 0) := by
  rw [postWithdraw_resolved customers cpf amount now customer h]
  by_cases hlt : getBalance customer.statement < amount
  · rw [if_pos hlt]
    exact ⟨⟨fun _ => hlt, fun _ => rfl⟩, fun heq => absurd hlt (by omega)⟩
  · rw [if_neg hlt]
    refine ⟨⟨fun hcontra => absurd hcontra (by simp), fun hcontra => absurd hcontra hlt⟩,
      fun heq => ⟨rfl, ?_⟩⟩
    rw [getBalance_append, debitOp_balanceStep]
    omega

/-- Witness for C3: Ana holds credit 100 and debit 40, balance 60;
withdrawing exactly 60 succeeds and zeroes the balance. -/
theorem C3_withdraw_insufficient_iff_witness :
    verifyIfExistsAccountCPF [sampleAna] "123" = some sampleAna
    ∧ ((postWithdraw [sampleAna] "123" 60 { day := 1, msInDay := 0 }
          = Except.error "Insufficient found!"
        ↔ getBalance sampleAna.statement < 60)
      ∧ (getBalance sampleAna.statement = 60 →
          postWithdraw [sampleAna] "123" 60 { day := 1, msInDay := 0 }
            = Except.ok (pushToCustomer [sampleAna] "123"
                { description := none, amount := 60,
                  createdAt := { day := 1, msInDay := 0 }, type := "debit" })
          ∧ getBalance (sampleAna.statement ++
              [{ description := none, amount := 60,
                 createdAt := { day := 1, msInDay := 0 }, type := "debit" }]) = 0)) :=
  ⟨by decide, C3_withdraw_insufficient_iff [sampleAna] "123" sampleAna 60
      { day := 1, msInDay := 0 } (by decide)⟩

/-- C4: for a resolved customer, a withdrawal strictly above the balance
answers the `Insufficient found!` error and the registry — in particular the
customer's statement — is exactly what it was. -/
theorem C4_failed_withdraw_unchanged (customers : List Customer) (cpf : String)
    (customer : Customer) (amount : Int) (now : JsDate)
    (h : verifyIfExistsAccountCPF customers cpf = some customer)
    (hgt : getBalance customer.statement < amount) :
    postWithdraw customers cpf amount now = Except.error "Insufficient found!"
    ∧ stepRegistry customers (ApiEvent.withdraw cpf amount now) = customers := by
  have herr : postWithdraw customers cpf amount now
      = Except.error "Insufficient found!" := by
    rw [postWithdraw_resolved customers cpf amount now customer h, if_pos hgt]
  exact ⟨herr, by rw [stepRegistry, herr]; rfl⟩

/-- Witness for C4: Ana's balance is 60; withdrawing 1000 fails and leaves
the registry untouched. -/
theorem C4_failed_withdraw_unchanged_witness :
    verifyIfExistsAccountCPF [sampleAna] "123" = some sampleAna
    ∧ getBalance sampleAna.statement < 1000
    ∧ (postWithdraw [sampleAna] "123" 1000 { day := 1, msInDay := 0 }
        = Except.error "Insufficient found!"
      ∧ stepRegistry [sampleAna] (ApiEvent.withdraw "123" 1000 { day := 1, msInDay := 0 })
        = [sampleAna]) :=
  ⟨by decide, by decide,
    C4_failed_withdraw_unchanged [sampleAna] "123" sampleAna 1000
      { day := 1, msInDay := 0 } (by decide) (by decide)⟩

/-- C5: opening an account whose `cpf` is already taken answers
`Customer already exists!` and leaves the registry exactly as it was; with a
fresh `cpf` the handler appends a customer carrying the new id, the given
name and an empty statement, growing the registry by exactly one entry. -/
theorem C5_open_account (customers : List Customer) (cpf name newId : String) :
    ((∃ c ∈ customers, c.cpf = cpf) →
      postAccount customers cpf name newId = Except.error "Customer already exists!"
      ∧ stepRegistry customers (ApiEvent.openAccount cpf name newId) = customers)
    ∧ ((∀ c ∈ customers, c.cpf ≠ cpf) →
      postAccount customers cpf name newId
        = Except.ok (customers ++
            [{ id := newId, name := name, cpf := cpf, statement := [] }])
      ∧ (stepRegistry customers (ApiEvent.openAccount cpf name newId)).length
          = customers.length + 1) := by
  constructor
  · intro hdup
    have hany : customers.any (fun customer => customer.cpf = cpf) = true := by
      rw [List.any_eq_true]
      obtain ⟨c, hc, hcpf⟩ := hdup
      exact ⟨c, hc, by simp [hcpf]⟩
    have herr : postAccount customers cpf name newId
        = Except.error "Customer already exists!" := by
      unfold postAccount
      rw [if_pos hany]
    exact ⟨herr, by rw [stepRegistry, herr]; rfl⟩
  · intro hfresh
    have hany : ¬ customers.any (fun customer => customer.cpf = cpf) = true := by
      rw [List.any_eq_true]
      rintro ⟨c, hc, hcpf⟩
      exact hfresh c hc (by simpa using hcpf)
    have hok : postAccount customers cpf name newId
        = Except.ok (customers ++
            [{ id := newId, name := name, cpf := cpf, statement := [] }]) := by
      unfold postAccount
      rw [if_neg hany]
    refine ⟨hok, ?_⟩
    rw [stepRegistry, hok, applyResult, List.length_append]
    rfl

/-- Witness for C5 on a one-customer registry: reopening `cpf` 123 fails
without touching the registry, while opening `cpf` 456 appends Bia's fresh
empty-statement record. -/
theorem C5_open_account_witness :
    ((∃ c ∈ [sampleAna], c.cpf = "123") →
      postAccount [sampleAna] "123" "Twin" "id9" = Except.error "Customer already exists!"
      ∧ stepRegistry [sampleAna] (ApiEvent.openAccount "123" "Twin" "id9") = [sampleAna])
    ∧ ((∀ c ∈ [sampleAna], c.cpf ≠ "123") →
      postAccount [sampleAna] "123" "Twin" "id9"
        = Except.ok ([sampleAna] ++
            [{ id := "id9", name := "Twin", cpf := "123", statement := [] }])
      ∧ (stepRegistry [sampleAna] (ApiEvent.openAccount "123" "Twin" "id9")).length
          = [sampleAna].length + 1) :=
  C5_open_account [sampleAna] "123" "Twin" "id9"

theorem getStatementDate_resolved (customers : List Customer) (cpf : String)
    (dateFormat : JsDate) (customer : Customer)
    (h : verifyIfExistsAccountCPF customers cpf = some customer) :
    getStatementDate customers cpf dateFormat
      = Except.ok (customer.statement.filter
          (fun s => toDateString s.createdAt = toDateString dateFormat)) := by
  unfold getStatementDate
  rw [h]

/-- C6: for a resolved customer, GET /statement/date answers exactly the
subsequence of the statement whose `createdAt` falls on the queried
calendar day (`toDateString` equality): the result is a sublist of the
statement (original order kept), holds precisely the day-matching
operations — multiplicities included — and is empty when no operation
matches the day. -/
theorem C6_statement_by_date (customers : List Customer) (cpf : String)
    (customer : Customer) (dateFormat : JsDate)
    (result : List StatementOperation)
    (h : verifyIfExistsAccountCPF customers cpf = some customer)
    (hr : getStatementDate customers cpf dateFormat = Except.ok result) :
    result.Sublist customer.statement
    ∧ (∀ op ∈ result, toDateString op.createdAt = toDateString dateFormat)
    ∧ (∀ op ∈ customer.statement,
        toDateString op.createdAt = toDateString dateFormat → op ∈ result)
    ∧ (∀ op : StatementOperation,
        toDateString op.createdAt = toDateString dateFormat →
        result.count op = customer.statement.count op)
    ∧ ((∀ op ∈ customer.statement,
        toDateString op.createdAt ≠ toDateString dateFormat) → result = []) := by
  rw [getStatementDate_resolved customers cpf dateFormat customer h] at hr
  injection hr with h1
  subst h1
  refine ⟨List.filter_sublist _, ?_, ?_, ?_, ?_⟩
  · intro op hop
    exact of_decide_eq_true (List.mem_filter.mp hop).2
  · intro op hop hday
    exact List.mem_filter.mpr ⟨hop, decide_eq_true hday⟩
  · intro op hday
    exact List.count_filter (decide_eq_true hday)
  · intro hnone
    rw [List.filter_eq_nil_iff]
    intro a ha
    simpa using hnone a ha
/-- Witness for C6 at day 0: both of Ana's operations were created on day 0,
so querying day 0 answers them both in order. -/
theorem C6_statement_by_date_witness :
    ([sampleCredit, sampleDebit] : List StatementOperation).Sublist sampleAna.statement
    ∧ (∀ op ∈ [sampleCredit, sampleDebit],
        toDateString op.createdAt = toDateString { day := 0, msInDay := 0 })
    ∧ (∀ op ∈ sampleAna.statement,
        toDateString op.createdAt = toDateString { day := 0, msInDay := 0 }
          → op ∈ [sampleCredit, sampleDebit])
    ∧ (∀ op : StatementOperation,
        toDateString op.createdAt = toDateString { day := 0, msInDay := 0 } →
        ([sampleCredit, sampleDebit] : List StatementOperation).count op
          = sampleAna.statement.count op)
    ∧ ((∀ op ∈ sampleAna.statement,
        toDateString op.createdAt ≠ toDateString { day := 0, msInDay := 0 })
          → [sampleCredit, sampleDebit] = ([] : List StatementOperation)) :=
  C6_statement_by_date [sampleAna] "123" sampleAna { day := 0, msInDay := 0 }
    [sampleCredit, sampleDebit] (by decide) rfl

theorem verify_after_close (customers : List Customer) (cpf : String) :
    verifyIfExistsAccountCPF
      (customers.filter (fun c => c.cpf ≠ cpf)) cpf = none := by
  unfold verifyIfExistsAccountCPF
  rw [List.find?_eq_none]
  intro x hx
  have hmem := List.mem_filter.mp hx
  simpa using hmem.2

/-- C7: closing a resolved account answers the registry filtered free of
that `cpf`; the closed customer is gone from it, resolution of the `cpf`
now fails, and every identity-gated endpoint — statement, balance, account,
statement-by-date, deposit, withdraw, rename, close — answers
`Customer not found!` on the new registry. -/
theorem C7_close_account (customers : List Customer) (cpf : String)
    (customer : Customer)
    (h : verifyIfExistsAccountCPF customers cpf = some customer) :
    deleteAccount customers cpf
      = Except.ok (customers.filter (fun c => c.cpf ≠ cpf))
    ∧ customer ∉ customers.filter (fun c => c.cpf ≠ cpf)
    ∧ verifyIfExistsAccountCPF (customers.filter (fun c => c.cpf ≠ cpf)) cpf = none
    ∧ getStatement (customers.filter (fun c => c.cpf ≠ cpf)) cpf
        = Except.error "Customer not found!"
    ∧ getBalanceEndpoint (customers.filter (fun c => c.cpf ≠ cpf)) cpf
        = Except.error "Customer not found!"
    ∧ getAccount (customers.filter (fun c => c.cpf ≠ cpf)) cpf
        = Except.error "Customer not found!"
    ∧ (∀ dateFormat : JsDate,
        getStatementDate (customers.filter (fun c => c.cpf ≠ cpf)) cpf dateFormat
          = Except.error "Customer not found!")
    ∧ (∀ (description : Option String) (amount : Int) (now : JsDate),
        postDeposit (customers.filter (fun c => c.cpf ≠ cpf)) cpf description amount now
          = Except.error "Customer not found!")
    ∧ (∀ (amount : Int) (now : JsDate),
        postWithdraw (customers.filter (fun c => c.cpf ≠ cpf)) cpf amount now
          = Except.error "Customer not found!")
    ∧ (∀ name : String,
        putAccount (customers.filter (fun c => c.cpf ≠ cpf)) cpf name
          = Except.error "Customer not found!")
    ∧ deleteAccount (customers.filter (fun c => c.cpf ≠ cpf)) cpf
        = Except.error "Customer not found!" := by
  have hnone := verify_after_close customers cpf
  have hfind : customers.find?
      (fun c => decide (c.cpf = cpf)) = some customer := h
  have hcpf : customer.cpf = cpf := by
    have hp := List.find?_some hfind
    simpa using hp
  refine ⟨deleteAccount_resolved customers cpf customer h, ?_, hnone,
    ?_, ?_, ?_, fun dateFormat => ?_, fun description amount now => ?_,
    fun amount now => ?_, fun name => ?_, ?_⟩
  · intro hmem
    have := (List.mem_filter.mp hmem).2
    simp [hcpf] at this
  · unfold getStatement
    rw [hnone]
  · unfold getBalanceEndpoint
    rw [hnone]
  · unfold getAccount
    rw [hnone]
  · unfold getStatementDate
    rw [hnone]
  · unfold postDeposit
    rw [hnone]
  · unfold postWithdraw
    rw [hnone]
  · unfold putAccount
    rw [hnone]
  · unfold deleteAccount
    rw [hnone]

/-- Witness for C7: closing Ana's account out of a two-customer registry. -/
theorem C7_close_account_witness :
    deleteAccount [sampleAna, sampleBia] "123"
      = Except.ok (([sampleAna, sampleBia] : List Customer).filter (fun c => c.cpf ≠ "123"))
    ∧ sampleAna ∉ ([sampleAna, sampleBia] : List Customer).filter (fun c => c.cpf ≠ "123")
    ∧ verifyIfExistsAccountCPF
        (([sampleAna, sampleBia] : List Customer).filter (fun c => c.cpf ≠ "123")) "123" = none
    ∧ getStatement
        (([sampleAna, sampleBia] : List Customer).filter (fun c => c.cpf ≠ "123")) "123"
        = Except.error "Customer not found!"
    ∧ getBalanceEndpoint
        (([sampleAna, sampleBia] : List Customer).filter (fun c => c.cpf ≠ "123")) "123"
        = Except.error "Customer not found!"
    ∧ getAccount
        (([sampleAna, sampleBia] : List Customer).filter (fun c => c.cpf ≠ "123")) "123"
        = Except.error "Customer not found!"
    ∧ (∀ dateFormat : JsDate,
        getStatementDate
          (([sampleAna, sampleBia] : List Customer).filter (fun c => c.cpf ≠ "123"))
          "123" dateFormat
          = Except.error "Customer not found!")
    ∧ (∀ (description : Option String) (amount : Int) (now : JsDate),
        postDeposit
          (([sampleAna, sampleBia] : List Customer).filter (fun c => c.cpf ≠ "123"))
          "123" description amount now
          = Except.error "Customer not found!")
    ∧ (∀ (amount : Int) (now : JsDate),
        postWithdraw
          (([sampleAna, sampleBia] : List Customer).filter (fun c => c.cpf ≠ "123"))
          "123" amount now
          = Except.error "Customer not found!")
    ∧ (∀ name : String,
        putAccount
          (([sampleAna, sampleBia] : List Customer).filter (fun c => c.cpf ≠ "123"))
          "123" name
          = Except.error "Customer not found!")
    ∧ deleteAccount
        (([sampleAna, sampleBia] : List Customer).filter (fun c => c.cpf ≠ "123")) "123"
        = Except.error "Customer not found!" :=
  C7_close_account [sampleAna, sampleBia] "123" sampleAna (by decide)

theorem verify_setCustomerName (customers : List Customer) (cpf name : String)
    (customer : Customer)
    (h : verifyIfExistsAccountCPF customers cpf = some customer) :
    verifyIfExistsAccountCPF (setCustomerName customers cpf name) cpf
      = some { customer with name := name } := by
  induction customers with
  | nil => simp [verifyIfExistsAccountCPF] at h
  | cons c rest ih =>
    unfold verifyIfExistsAccountCPF at h ⊢
    unfold setCustomerName
    by_cases hc : c.cpf = cpf
    · rw [List.find?_cons_of_pos rest (by simp [hc])] at h
      injection h with h1
      rw [if_pos hc, List.find?_cons_of_pos _ (by simp [hc]), h1]
    · rw [List.find?_cons_of_neg rest (by simp [hc])] at h
      rw [if_neg hc, List.find?_cons_of_neg _ (by simp [hc])]
      exact ih h

/-- C8, counterexample: renaming Ana to Maria answers `201` with an empty
body (`response.status(201).send()`): the response carries `none`, never the
updated customer record, so the operation does not return the record. -/
theorem C8_put_empty_body_counterexample :
    putAccount [sampleAna] "123" "Maria"
      = Except.ok (none, setCustomerName [sampleAna] "123" "Maria")
    ∧ (none : Option Customer) ≠ some { sampleAna with name := "Maria" } :=
  ⟨rfl, by decide⟩

/-- C8, amended: for a resolved customer, PUT /account replaces that
customer's `name` in place — afterwards the `cpf` resolves to the same
record with only `name` updated — but answers 201 with an empty body rather
than returning the updated record. -/
theorem C8_update_name (customers : List Customer) (cpf name : String)
    (customer : Customer)
    (h : verifyIfExistsAccountCPF customers cpf = some customer) :
    putAccount customers cpf name
      = Except.ok (none, setCustomerName customers cpf name)
    ∧ verifyIfExistsAccountCPF (setCustomerName customers cpf name) cpf
        = some { customer with name := name } :=
  ⟨putAccount_resolved customers cpf name customer h,
    verify_setCustomerName customers cpf name customer h⟩

/-- Witness for the amended C8: renaming Ana to Maria. -/
theorem C8_update_name_witness :
    putAccount [sampleAna] "123" "Maria"
      = Except.ok (none, setCustomerName [sampleAna] "123" "Maria")
    ∧ verifyIfExistsAccountCPF (setCustomerName [sampleAna] "123" "Maria") "123"
        = some { sampleAna with name := "Maria" } :=
  C8_update_name [sampleAna] "123" "Maria" sampleAna (by decide)

theorem applyResult_ok (customers updated : List Customer) :
    applyResult customers (Except.ok updated) = updated :=
  rfl

theorem applyResult_error (customers : List Customer) (msg : String) :
    applyResult customers (Except.error msg) = customers :=
  rfl

theorem mem_pushToCustomer (customers : List Customer) (cpf : String)
    (op : StatementOperation) (x : Customer)
    (hx : x ∈ pushToCustomer customers cpf op) :
    x ∈ customers
    ∨ ∃ c ∈ customers, x = { c with statement := c.statement ++ [op] } := by
  induction customers with
  | nil => simp [pushToCustomer] at hx
  | cons c rest ih =>
    unfold pushToCustomer at hx
    by_cases hc : c.cpf = cpf
    · rw [if_pos hc] at hx
      rcases List.mem_cons.mp hx with h1 | h1
      · exact Or.inr ⟨c, List.mem_cons_self c rest, h1⟩
      · exact Or.inl (List.mem_cons_of_mem c h1)
    · rw [if_neg hc] at hx
      rcases List.mem_cons.mp hx with h1 | h1
      · exact Or.inl (by rw [h1]; exact List.mem_cons_self c rest)
      · rcases ih h1 with h2 | ⟨d, hd, hdx⟩
        · exact Or.inl (List.mem_cons_of_mem c h2)
        · exact Or.inr ⟨d, List.mem_cons_of_mem c hd, hdx⟩

theorem mem_setCustomerName (customers : List Customer) (cpf name : String)
    (x : Customer) (hx : x ∈ setCustomerName customers cpf name) :
    x ∈ customers ∨ ∃ c ∈ customers, x = { c with name := name } := by
  induction customers with
  | nil => simp [setCustomerName] at hx
  | cons c rest ih =>
    unfold setCustomerName at hx
    by_cases hc : c.cpf = cpf
    · rw [if_pos hc] at hx
      rcases List.mem_cons.mp hx with h1 | h1
      · exact Or.inr ⟨c, List.mem_cons_self c rest, h1⟩
      · exact Or.inl (List.mem_cons_of_mem c h1)
    · rw [if_neg hc] at hx
      rcases List.mem_cons.mp hx with h1 | h1
      · exact Or.inl (by rw [h1]; exact List.mem_cons_self c rest)
      · rcases ih h1 with h2 | ⟨d, hd, hdx⟩
        · exact Or.inl (List.mem_cons_of_mem c h2)
        · exact Or.inr ⟨d, List.mem_cons_of_mem c hd, hdx⟩

theorem valid_pushToCustomer (customers : List Customer) (cpf : String)
    (op : StatementOperation) (hop : ValidOp op)
    (h : RegistryOpsValid customers) :
    RegistryOpsValid (pushToCustomer customers cpf op) := by
  intro x hx o ho
  rcases mem_pushToCustomer customers cpf op x hx with hmem | ⟨c, hcmem, hxc⟩
  · exact h x hmem o ho
  · subst hxc
    rcases List.mem_append.mp ho with h1 | h1
    · exact h c hcmem o h1
    · rw [List.mem_singleton.mp h1]
      exact hop

theorem stepRegistry_preserves_valid (customers : List Customer) (e : ApiEvent)
    (h : RegistryOpsValid customers) :
    RegistryOpsValid (stepRegistry customers e) := by
  cases e with
  | openAccount cpf name newId =>
    show RegistryOpsValid (applyResult customers (postAccount customers cpf name newId))
    unfold postAccount
    by_cases hdup : customers.any (fun customer => customer.cpf = cpf) = true
    · rw [if_pos hdup, applyResult_error]
      exact h
    · rw [if_neg hdup, applyResult_ok]
      intro c hc op hop
      rcases List.mem_append.mp hc with h1 | h1
      · exact h c h1 op hop
      · rw [List.mem_singleton.mp h1] at hop
        simp at hop
  | deposit cpf description amount now =>
    show RegistryOpsValid (applyResult customers
      (postDeposit customers cpf description amount now))
    cases hver : verifyIfExistsAccountCPF customers cpf with
    | none =>
      unfold postDeposit
      rw [hver, applyResult_error]
      exact h
    | some customer =>
      rw [postDeposit_resolved customers cpf description amount now customer hver,
        applyResult_ok]
      exact valid_pushToCustomer customers cpf _ (Or.inl rfl) h
  | withdraw cpf amount now =>
    show RegistryOpsValid (applyResult customers (postWithdraw customers cpf amount now))
    cases hver : verifyIfExistsAccountCPF customers cpf with
    | none =>
      unfold postWithdraw
      rw [hver, applyResult_error]
      exact h
    | some customer =>
      rw [postWithdraw_resolved customers cpf amount now customer hver]
      by_cases hlt : getBalance customer.statement < amount
      · rw [if_pos hlt, applyResult_error]
        exact h
      · rw [if_neg hlt, applyResult_ok]
        exact valid_pushToCustomer customers cpf _ (Or.inr ⟨rfl, rfl⟩) h
  | updateName cpf name =>
    show RegistryOpsValid (applyResult customers
      ((putAccount customers cpf name).map Prod.snd))
    cases hver : verifyIfExistsAccountCPF customers cpf with
    | none =>
      unfold putAccount
      rw [hver]
      exact h
    | some customer =>
      rw [putAccount_resolved customers cpf name customer hver]
      show RegistryOpsValid (setCustomerName customers cpf name)
      intro x hx o ho
      rcases mem_setCustomerName customers cpf name x hx with hmem | ⟨c, hcmem, hxc⟩
      · exact h x hmem o ho
      · subst hxc
        exact h c hcmem o ho
  | closeAccount cpf =>
    show RegistryOpsValid (applyResult customers (deleteAccount customers cpf))
    cases hver : verifyIfExistsAccountCPF customers cpf with
    | none =>
      unfold deleteAccount
      rw [hver, applyResult_error]
      exact h
    | some customer =>
      rw [deleteAccount_resolved customers cpf customer hver, applyResult_ok]
      intro x hx o ho
      exact h x (List.mem_filter.mp hx).1 o ho

theorem runRegistry_valid (events : List ApiEvent) :
    RegistryOpsValid (runRegistry events) := by
  suffices hgen : ∀ (evs : List ApiEvent) (customers : List Customer),
      RegistryOpsValid customers → RegistryOpsValid (evs.foldl stepRegistry customers) by
    refine hgen events [] ?_
    intro c hc
    simp at hc
  intro evs
  induction evs with
  | nil =>
    intro customers h
    exact h
  | cons e rest ih =>
    intro customers h
    exact ih _ (stepRegistry_preserves_valid customers e h)

/-- C9: in every registry reachable from the empty one by any sequence of
requests, every stored operation either has type exactly `"credit"` (only
the deposit handler pushes these, with the request's optional description)
or type exactly `"debit"` with no description (only the withdraw handler
pushes these, and its literal has no description field). -/
theorem C9_reachable_operation_kinds (events : List ApiEvent) (c : Customer)
    (op : StatementOperation) (hc : c ∈ runRegistry events)
    (hop : op ∈ c.statement) :
    op.type = "credit" ∨ (op.type = "debit" ∧ op.description = none) :=
  runRegistry_valid events c hc op hop

/-- Witness for C9: open an account, deposit into it, withdraw from it, and
look at the first stored operation of the only customer. -/
theorem C9_reachable_operation_kinds_witness :
    sampleCredit.type = "credit"
    ∨ (sampleCredit.type = "debit" ∧ sampleCredit.description = none) :=
  C9_reachable_operation_kinds
    [ApiEvent.openAccount "123" "Ana" "id1",
     ApiEvent.deposit "123" (some "pay") 100 { day := 0, msInDay := 5 },
     ApiEvent.withdraw "123" 40 { day := 0, msInDay := 9 }]
    { id := "id1", name := "Ana", cpf := "123",
      statement := [sampleCredit, { description := none, amount := 40,
                                    createdAt := { day := 0, msInDay := 9 },
                                    type := "debit" }] }
    sampleCredit (by decide) (by decide)

theorem pushToCustomer_decomp (customers : List Customer) (cpf : String)
    (op : StatementOperation) (customer : Customer)
    (h : verifyIfExistsAccountCPF customers cpf = some customer) :
    ∃ before after,
      customers = before ++ customer :: after
      ∧ pushToCustomer customers cpf op
          = before ++ { customer with statement := customer.statement ++ [op] }
              :: after := by
  induction customers with
  | nil => simp [verifyIfExistsAccountCPF] at h
  | cons c rest ih =>
    unfold verifyIfExistsAccountCPF at h
    unfold pushToCustomer
    by_cases hc : c.cpf = cpf
    · rw [List.find?_cons_of_pos rest (by simp [hc])] at h
      injection h with h1
      subst h1
      exact ⟨[], rest, rfl, by rw [if_pos hc]; rfl⟩
    · rw [List.find?_cons_of_neg rest (by simp [hc])] at h
      obtain ⟨before, after, heq, hpush⟩ := ih h
      refine ⟨c :: before, after, by rw [List.cons_append, ← heq], ?_⟩
      rw [if_neg hc, hpush, List.cons_append]

/-- C10: when deposit and withdraw succeed on a resolved customer, each
resulting registry is the old one with exactly one operation appended to
that customer's statement — the pushed credit or debit — while the
customer's `id`, `name` and `cpf` and every other registry entry are
untouched. -/
theorem C10_mutation_frame (customers : List Customer) (cpf : String)
    (customer : Customer) (description : Option String)
    (damount wamount : Int) (dnow wnow : JsDate)
    (updatedD updatedW : List Customer)
    (h : verifyIfExistsAccountCPF customers cpf = some customer)
    (hd : postDeposit customers cpf description damount dnow = Except.ok updatedD)
    (hw : postWithdraw customers cpf wamount wnow = Except.ok updatedW) :
    AppendsOnly customers updatedD customer
      { description := description, amount := damount, createdAt := dnow,
        type := "credit" }
    ∧ AppendsOnly customers updatedW customer
      { description := none, amount := wamount, createdAt := wnow,
        type := "debit" } := by
  constructor
  · rw [postDeposit_resolved customers cpf description damount dnow customer h] at hd
    injection hd with h1
    rw [← h1]
    exact pushToCustomer_decomp customers cpf _ customer h
  · rw [postWithdraw_resolved customers cpf wamount wnow customer h] at hw
    by_cases hlt : getBalance customer.statement < wamount
    · rw [if_pos hlt] at hw
      exact absurd hw (by simp)
    · rw [if_neg hlt] at hw
      injection hw with h1
      rw [← h1]
      exact pushToCustomer_decomp customers cpf _ customer h

/-- Witness for C10: on a two-customer registry, deposit 5 and withdraw 3
against Ana's account (balance 60). -/
theorem C10_mutation_frame_witness :
    AppendsOnly [sampleAna, sampleBia]
      (pushToCustomer [sampleAna, sampleBia] "123"
        { description := some "gift", amount := 5,
          createdAt := { day := 2, msInDay := 0 }, type := "credit" })
      sampleAna
      { description := some "gift", amount := 5,
        createdAt := { day := 2, msInDay := 0 }, type := "credit" }
    ∧ AppendsOnly [sampleAna, sampleBia]
      (pushToCustomer [sampleAna, sampleBia] "123"
        { description := none, amount := 3,
          createdAt := { day := 2, msInDay := 1 }, type := "debit" })
      sampleAna
      { description := none, amount := 3,
        createdAt := { day := 2, msInDay := 1 }, type := "debit" } :=
  C10_mutation_frame [sampleAna, sampleBia] "123" sampleAna (some "gift")
    5 3 { day := 2, msInDay := 0 } { day := 2, msInDay := 1 }
    (pushToCustomer [sampleAna, sampleBia] "123"
      { description := some "gift", amount := 5,
        createdAt := { day := 2, msInDay := 0 }, type := "credit" })
    (pushToCustomer [sampleAna, sampleBia] "123"
      { description := none, amount := 3,
        createdAt := { day := 2, msInDay := 1 }, type := "debit" })
    (by decide) rfl rfl
